import Mathlib

/-!
Verification of the flask-baby-app CRUD/authorization core.

Shallow embedding of:
- `src/models/BaseModel.py` (class `BaseMixInModel`: `create`, `get`, `update`, `delete`),
- `src/models/Occurrence.py` (`Occurrence.to_json`),
- `src/view/occurrence.py` (payload decamelization; `get_group` call),
- `src/auth/auth_decorators.py` (`token_required`),
- `src/helpers/auth.py` (`has_required_roles`),
- `src/helpers/exceptions.py` (`Error`, `handle_exception_msg`).

Machine-level conventions: Python `datetime` values are modelled as explicit
calendar structures; Python exceptions are values of `PyExc`; operations that
may raise an exception that the surrounding code does not catch return
`Except PyExc _`.  The persistence backend (SQLAlchemy session) is modelled as
a pair of record lists (`committed`, `pending`): `session.query` reads
`pending`, `commit` copies `pending` into `committed` (or raises, when the
injected fault flag is set) and `rollback` resets `pending` to `committed`.
-/

set_option maxRecDepth 40000

namespace BabyApp

/-- Python exception classes that occur in the embedded code paths. -/
inductive PyExc
  | sqlalchemyError
  | keycloakError
  | bussinesRulesError
  | indexError
  | typeError
deriving DecidableEq, Repr

/-- Python `exception.__class__.__name__`. -/
def PyExc.className : PyExc → String
  | .sqlalchemyError => "SQLAlchemyError"
  | .keycloakError => "KeycloakError"
  | .bussinesRulesError => "BussinesRulesError"
  | .indexError => "IndexError"
  | .typeError => "TypeError"

/-- The structured error value of `src/helpers/exceptions.py` (`Error` dataclass).
The `exception` object itself is represented by its class name (`type`); `details`
is `str(exception.__cause__)`, which is `"None"` for the exceptions raised in the
embedded paths (none of them is raised `from` another). -/
structure Error where
  type : String
  details : String
  message : String
deriving DecidableEq, Repr

/-- `handle_exception_msg` from `src/helpers/exceptions.py`: wraps an exception
and a message into the structured `Error` value. -/
def handle_exception_msg (e : PyExc) (msg : String) : Error :=
  ⟨e.className, "None", msg⟩

/-- Naive Python `datetime` (no tzinfo), as stored in the `register_at` /
`update_at` columns. -/
structure PyDateTime where
  year : Nat
  month : Nat
  day : Nat
  hour : Nat
  minute : Nat
  second : Nat
deriving DecidableEq, Repr

/-- Gregorian leap-year rule (as used by Python `datetime` arithmetic). -/
def isLeap (y : Nat) : Bool :=
  (y % 4 == 0 && y % 100 != 0) || y % 400 == 0

/-- Number of days of month `m` in year `y`. -/
def daysInMonth (y m : Nat) : Nat :=
  if m == 2 then (if isLeap y then 29 else 28)
  else if m == 4 || m == 6 || m == 9 || m == 11 then 30
  else 31

/-- Python `d - timedelta(hours=3)` on a naive datetime (`Occurrence.to_json`,
`src/models/Occurrence.py` lines 101 and 103), with day/month/year borrow. -/
def subHours3 (d : PyDateTime) : PyDateTime :=
  if d.hour ≥ 3 then { d with hour := d.hour - 3 }
  else
    let h := d.hour + 21
    if d.day > 1 then { d with day := d.day - 1, hour := h }
    else if d.month > 1 then
      { d with month := d.month - 1, day := daysInMonth d.year (d.month - 1), hour := h }
    else { d with year := d.year - 1, month := 12, day := 31, hour := h }

/-- Zero-padded two-digit decimal rendering (Python `%m`, `%d`, `%H`, `%M`, `%S`). -/
def pad2 (n : Nat) : String :=
  if n < 10 then "0" ++ toString n else toString n

/-- Zero-padded four-digit decimal rendering (Python `%Y`). -/
def pad4 (n : Nat) : String :=
  if n < 10 then "000" ++ toString n
  else if n < 100 then "00" ++ toString n
  else if n < 1000 then "0" ++ toString n
  else toString n

/-- Python `d.strftime('%Y-%m-%dT%H:%M:%S')` (`src/models/Occurrence.py`
lines 102 and 104). -/
def strftimeIso (d : PyDateTime) : String :=
  pad4 d.year ++ "-" ++ pad2 d.month ++ "-" ++ pad2 d.day ++ "T" ++
    pad2 d.hour ++ ":" ++ pad2 d.minute ++ ":" ++ pad2 d.second

/-- A row of the `occurrence` table (`src/models/Occurrence.py` lines 57-63). -/
structure Occurrence where
  id : Nat
  type_tag : String
  description : Option String
  resume : String
  active : Bool
  register_at : PyDateTime
  update_at : PyDateTime
deriving DecidableEq, Repr

/-- The field-value mapping accepted by `create` (all columns except the
autoincrement `id`; cf. `OccurrencePayloadType` in `src/types/payloads.py`). -/
structure OccPayload where
  type_tag : String
  description : Option String
  resume : String
  active : Bool
  register_at : PyDateTime
  update_at : PyDateTime
deriving DecidableEq, Repr

/-- A partial update payload: `update` applies `setattr` for exactly the keys
present in the payload dict; absent keys leave the column untouched. -/
structure OccPatch where
  type_tag : Option String
  description : Option (Option String)
  resume : Option String
  active : Option Bool
  register_at : Option PyDateTime
  update_at : Option PyDateTime
deriving DecidableEq, Repr

/-- An all-absent patch (Python `update(id, ⟨empty dict⟩)`). -/
def OccPatch.empty : OccPatch :=
  ⟨none, none, none, none, none, none⟩

/-- `cls(**payload)` followed by the autoincrement id assignment on insert. -/
def mkOccurrence (i : Nat) (p : OccPayload) : Occurrence :=
  ⟨i, p.type_tag, p.description, p.resume, p.active, p.register_at, p.update_at⟩

/-- `setattr(data, key, value)` for each key present in the payload
(`src/models/BaseModel.py` lines 232-233). -/
def applyPatch (r : Occurrence) (p : OccPatch) : Occurrence :=
  { r with
    type_tag := p.type_tag.getD r.type_tag
    description := p.description.getD r.description
    resume := p.resume.getD r.resume
    active := p.active.getD r.active
    register_at := p.register_at.getD r.register_at
    update_at := p.update_at.getD r.update_at }

/-- The SQLAlchemy session of `src/database/connector.py` as seen by the store:
`pending` is what `session.query` observes (inserts/updates/deletes applied),
`committed` is the durable state, `nextId` the autoincrement counter. -/
structure DBSession where
  committed : List Occurrence
  pending : List Occurrence
  nextId : Nat
deriving DecidableEq, Repr

/-- `session.query(cls).filter(cls.id == id).first()`. -/
def findById (recs : List Occurrence) (i : Nat) : Option Occurrence :=
  recs.find? (fun r => r.id == i)

/-- Replace the first record with the given id (the object `setattr` mutates). -/
def replaceFirst (recs : List Occurrence) (i : Nat) (r' : Occurrence) : List Occurrence :=
  match recs with
  | [] => []
  | x :: xs => if x.id == i then r' :: xs else x :: replaceFirst xs i r'

/-- `session.delete(data)`: remove the first record with the given id. -/
def removeById (recs : List Occurrence) (i : Nat) : List Occurrence :=
  recs.eraseP (fun r => r.id == i)

/-- `session.rollback()`: discard every pending change. -/
def DBSession.rollback (st : DBSession) : DBSession :=
  { st with pending := st.committed }

-- ### Serialization pipeline (`Occurrence.to_json`, pyhumps)

/-- Python values appearing in the dict that `Occurrence.to_json` hands to
`json.dumps`: strings, booleans, `None` — and SQLAlchemy's `InstanceState`
object, which every instrumented instance's `__dict__` carries under the key
`'_sa_instance_state'` and which is NOT JSON-serializable. -/
inductive PyVal
  | vstr (s : String)
  | vbool (b : Bool)
  | vnone
  | vstate
deriving DecidableEq, Repr

/-- `json.dumps` string escaping for the characters that can occur in the
embedded fields (quote and backslash). -/
def jsonEscape (s : String) : String :=
  String.mk (s.data.flatMap (fun c =>
    if c == '"' then ['\\', '"']
    else if c == '\\' then ['\\', '\\']
    else [c]))

/-- `json.dumps` rendering of one scalar; a non-serializable value (the
`InstanceState` entry) raises `TypeError`. -/
def dumpVal : PyVal → Except PyExc String
  | .vstr s => .ok ("\"" ++ jsonEscape s ++ "\"")
  | .vbool b => .ok (if b then "true" else "false")
  | .vnone => .ok "null"
  | .vstate => .error .typeError

/-- `json.dumps` over the dict entries, left to right, propagating the first
`TypeError`. -/
def dumpEntries : List (String × PyVal) → Except PyExc (List String)
  | [] => .ok []
  | kv :: rest =>
    match dumpVal kv.2 with
    | .error e => .error e
    | .ok v =>
      match dumpEntries rest with
      | .error e => .error e
      | .ok vs => .ok (("\"" ++ jsonEscape kv.1 ++ "\": " ++ v) :: vs)

/-- `json.dumps` of a dict with the default separators; raises `TypeError` on
any non-serializable value. -/
def json_dumps (l : List (String × PyVal)) : Except PyExc String :=
  match dumpEntries l with
  | .error e => .error e
  | .ok vs => .ok ("\x7b" ++ String.intercalate ", " vs ++ "\x7d")

/-- Separator characters of pyhumps `UNDERSCORE_RE`. -/
def isSep (c : Char) : Bool :=
  c == '_' || c == '-'

/-- pyhumps `UNDERSCORE_RE.sub(lambda m: m.group(0)[-1].upper(), s)` scanned
left to right: a run of `-`/`_` preceded by a non-separator and followed by a
non-separator is replaced by the following character uppercased.  `prev` is the
original character just before the current position; `fuel` bounds recursion
depth (callers pass the list length, which the recursion never exhausts). -/
def usub : Nat → Char → List Char → List Char
  | 0, _, l => l
  | _ + 1, _, [] => []
  | fuel + 1, prev, c :: cs =>
    if isSep c && !isSep prev then
      match cs.dropWhile isSep with
      | [] => c :: cs
      | d :: ds => d.toUpper :: usub fuel d ds
    else
      c :: usub fuel c cs

/-- Python `str.isupper()` of a (≤ 2 character) slice: some cased character and
every cased character uppercase. -/
def pyIsUpperSlice (l : List Char) : Bool :=
  l.any (fun c => c.isUpper || c.isLower) && l.all (fun c => !c.isLower)

/-- pyhumps `camelize` on a string: keep numeric strings; lowercase the first
character unless the first two form an uppercase slice; apply the
`UNDERSCORE_RE` substitution to the remainder. -/
def pyCamelize (s : String) : String :=
  if !s.data.isEmpty && s.data.all Char.isDigit then s
  else
    match s.data with
    | [] => ""
    | c :: cs =>
      let head := if pyIsUpperSlice (List.take 2 (c :: cs)) then c else c.toLower
      String.mk (head :: usub cs.length c cs)

/-- pyhumps `decamelize` on the simple camelCase identifiers used as API
payload keys: insert `_` before each inner uppercase letter, lowercase all. -/
def pyDecamelize (s : String) : String :=
  String.mk (decamAux true s.data)
where
  decamAux : Bool → List Char → List Char
    | _, [] => []
    | first, c :: cs =>
      if c.isUpper && !first then '_' :: c.toLower :: decamAux false cs
      else c.toLower :: decamAux false cs

/-- `humps.decamelize(api.payload)` on a flat dict: pyhumps processes the keys
and leaves scalar values untouched (`src/view/occurrence.py` lines 118 and 149). -/
def decamelizeKeys {α : Type} (l : List (String × α)) : List (String × α) :=
  l.map (fun kv => (pyDecamelize kv.1, kv.2))

/-- The dict built by `Occurrence.to_json` (`src/models/Occurrence.py` lines
97-104).  `as_dict(exclude=['register_at', 'update_at'])` iterates
`self.__dict__`, which on a SQLAlchemy-instrumented instance always starts with
the non-serializable `'_sa_instance_state'` entry (not in the exclude list, so
it is kept) followed by the column attributes minus the two excluded
timestamps; `data['id'] = str(self.id)` then overwrites `id` in place, and the
two shifted, formatted timestamps are appended at the end. -/
def occDict (o : Occurrence) : List (String × PyVal) :=
  [("_sa_instance_state", .vstate),
   ("id", .vstr (toString o.id)),
   ("type_tag", .vstr o.type_tag),
   ("description", match o.description with | some s => .vstr s | none => .vnone),
   ("resume", .vstr o.resume),
   ("active", .vbool o.active),
   ("register_at", .vstr (strftimeIso (subHours3 o.register_at))),
   ("update_at", .vstr (strftimeIso (subHours3 o.update_at)))]

/-- `Occurrence.to_json` (`src/models/Occurrence.py` lines 83-111): build the
dict, `json.dumps` it, and apply `humps.camelize` to the resulting *string*.
Since the dict always contains the `'_sa_instance_state'` entry, `json.dumps`
always raises `TypeError`, the `except (TypeError, ValueError)` branch is
always taken, and the function returns the structured `Error` — the camelize
branch is never reached on a real record. -/
def to_json (o : Occurrence) : Except Error String :=
  match json_dumps (occDict o) with
  | .error e => .error (handle_exception_msg e "Failed to convert to JSON.")
  | .ok s => .ok (pyCamelize s)

-- ### The generic record store (`BaseMixInModel` in `src/models/BaseModel.py`)

/-- Result of a store operation: the record (or its JSON form) on success, the
structured error value on failure — errors are returned, not raised. -/
inductive OpResult
  | record (r : Occurrence)
  | json (s : String)
  | err (e : Error)
deriving DecidableEq, Repr

/-- `query_to_json` (`src/models/Occurrence.py` lines 65-81): the store
operations return whatever `to_json` produced — the camelized string, or the
structured `Error` value. -/
def query_to_json (o : Occurrence) : OpResult :=
  match to_json o with
  | .ok s => .json s
  | .error e => .err e

/-- `BaseMixInModel.create` (lines 124-151): construct, `add`, `commit`; on
`SQLAlchemyError` (injected via `commitFails`) roll back and return the
structured error. -/
def create (st : DBSession) (p : OccPayload) (commitFails toJson : Bool) :
    OpResult × DBSession :=
  let data := mkOccurrence st.nextId p
  let added := { st with pending := st.pending ++ [data] }
  if commitFails then
    (.err (handle_exception_msg .sqlalchemyError "Failed to create Occurrence."),
     added.rollback)
  else
    let st' := { added with committed := added.pending, nextId := st.nextId + 1 }
    (if toJson then query_to_json data else .record data, st')

deriving instance DecidableEq for Except

/-- Result of `BaseMixInModel.get`: single record, Python `None` sentinel, the
full list, JSON forms of those, or the structured error. -/
inductive GetResult
  | one (r : Occurrence)
  | sentinel
  | all (rs : List Occurrence)
  | oneJson (s : String)
  | allJson (ss : List (Except Error String))
  | err (e : Error)
deriving DecidableEq, Repr

/-- The `else` arm of `BaseMixInModel.get` (lines 183-191): `query().all()`,
mapped through `to_json` when the list is non-empty (truthy) and `to_json` was
requested — the Python list comprehension keeps each item's result, a string or
the structured `Error`, as-is. -/
def getAllBranch (st : DBSession) (toJson : Bool) : GetResult :=
  let rs := st.pending
  if !rs.isEmpty && toJson then .allJson (rs.map to_json) else .all rs

/-- `BaseMixInModel.get` (lines 154-196).  Note the Python truthiness test
`if id:`: the identifier `0` takes the all-records branch.  A `None` result is
returned as-is (the not-found sentinel), never as an `Error`.  The
`SQLAlchemyError` branch is not fault-injected here (reads are not mutations). -/
def get (st : DBSession) (id : Option Nat) (toJson : Bool) : GetResult :=
  match id with
  | some i =>
    if i != 0 then
      match findById st.pending i with
      | none => .sentinel
      | some r =>
        if toJson then
          match to_json r with
          | .ok s => .oneJson s
          | .error e => .err e
        else .one r
    else getAllBranch st toJson
  | none => getAllBranch st toJson

/-- `BaseMixInModel.update` (lines 198-242): load by id; absent id returns the
`BussinesRulesError`-shaped error with no side effect; otherwise apply the
payload, commit, and on `SQLAlchemyError` roll back and return the error. -/
def update (st : DBSession) (i : Nat) (p : OccPatch) (commitFails toJson : Bool) :
    OpResult × DBSession :=
  match findById st.pending i with
  | none =>
    (.err (handle_exception_msg .bussinesRulesError "id not found."), st)
  | some data =>
    let data' := applyPatch data p
    let st' := { st with pending := replaceFirst st.pending i data' }
    if commitFails then
      (.err (handle_exception_msg .sqlalchemyError "Failed to update Occurrence."),
       st'.rollback)
    else
      (if toJson then query_to_json data' else .record data',
       { st' with committed := st'.pending })

/-- `BaseMixInModel.delete` (lines 244-292).  `delete(0)` is Python-falsy and
reaches `session.delete()` with no argument, an uncaught `TypeError`.  Absent
id returns the `BussinesRulesError`-shaped error.  On `SQLAlchemyError` during
commit the handler (lines 290-292) returns the structured error WITHOUT calling
rollback, so the pending deletion stays visible to session reads. -/
def delete (st : DBSession) (i : Nat) (commitFails toJson : Bool) :
    Except PyExc (OpResult × DBSession) :=
  if i != 0 then
    match findById st.pending i with
    | none =>
      .ok (.err (handle_exception_msg .bussinesRulesError "id not found."), st)
    | some data =>
      let st' := { st with pending := removeById st.pending i }
      if commitFails then
        .ok (.err (handle_exception_msg .sqlalchemyError "Failed to delete Occurrence."),
             st')
      else
        .ok (if toJson then query_to_json data else .record data,
             { st' with committed := st'.pending })
  else
    .error .typeError

-- ### Filtered group read (called from the view, not defined under src/)

/-- Values a filter criterion can carry, matching the column types. -/
inductive FieldVal
  | vs (s : String)
  | vos (s : Option String)
  | vb (b : Bool)
  | vn (n : Nat)
  | vdt (d : PyDateTime)
deriving DecidableEq, Repr

/-- Modelled from the spec: the equality test of one filter criterion against a
record, for `get_group` — "records whose fields match every key-value pair in
the filter mapping (ANDed equality filters only); unknown filter keys are
silently ignored".  A key that names no column (or carries a value of the wrong
type for its column) imposes no constraint. -/
def fieldMatches (r : Occurrence) (kv : String × FieldVal) : Bool :=
  if kv.1 == "id" then (match kv.2 with | .vn n => r.id == n | _ => true)
  else if kv.1 == "type_tag" then (match kv.2 with | .vs s => r.type_tag == s | _ => true)
  else if kv.1 == "description" then (match kv.2 with | .vos s => r.description == s | _ => true)
  else if kv.1 == "resume" then (match kv.2 with | .vs s => r.resume == s | _ => true)
  else if kv.1 == "active" then (match kv.2 with | .vb b => r.active == b | _ => true)
  else if kv.1 == "register_at" then (match kv.2 with | .vdt d => r.register_at == d | _ => true)
  else if kv.1 == "update_at" then (match kv.2 with | .vdt d => r.update_at == d | _ => true)
  else true

/-- Whether a filter key names a column of the `occurrence` table. -/
def knownKey (k : String) : Bool :=
  k == "id" || k == "type_tag" || k == "description" || k == "resume" ||
    k == "active" || k == "register_at" || k == "update_at"

/-- Modelled from the spec: `get_group(filterCriteria)` — the definition behind
`Occurrence.get_group_to_json`, which `src/view/occurrence.py` line 92 calls
but which is not under `src/`.  Returns every record matching all criteria. -/
def get_group (recs : List Occurrence) (filt : List (String × FieldVal)) :
    List Occurrence :=
  recs.filter (fun r => filt.all (fieldMatches r))

-- ### Token authorization gate (`src/auth/auth_decorators.py`, `src/helpers/auth.py`)

/-- The value of the token's `realm_access` claim as the code inspects it:
either a dict whose `roles` key holds a list (`[]` when the key or the whole
claim is absent, since `token.get('realm_access', \x7b\x7d)` defaults to an
empty dict), or some non-dict value. -/
inductive RealmAccess
  | dict (roles : List String)
  | nonDict
deriving DecidableEq, Repr

/-- `has_required_roles` (`src/helpers/auth.py` lines 23-51).  Mirrors the
source exactly: sets are deduplicated lists; when the role set is empty the
subset test is skipped (`if roles else False`) and `missing_roles` is `[]`, so
the log-string expression `missing_roles[0]` raises `IndexError`. -/
def has_required_roles (realmAccess : RealmAccess) (required : List String) :
    Except PyExc Bool :=
  match realmAccess with
  | .nonDict => .ok false
  | .dict rolesList =>
    let roles := rolesList.dedup
    let required_set := required.dedup
    let has := if !roles.isEmpty then required_set.all (fun x => roles.contains x) else false
    let missing := if !roles.isEmpty then required_set.filter (fun x => !roles.contains x) else []
    if has then .ok true
    else
      match missing with
      | [] => .error .indexError
      | _ :: _ => .ok false

/-- The decoded content of the presented bearer token, as the verification and
role check observe it. -/
structure TokenData where
  alg : String
  sigValid : Bool
  exp : Int
  realm_access : RealmAccess
deriving DecidableEq, Repr

/-- The `options` dict passed to `decode_token`
(`src/auth/auth_decorators.py` line 88). -/
structure VerifyOptions where
  verify_aud : Bool
  verify_iat : Bool
  verify_exp : Bool
deriving DecidableEq, Repr

/-- The literal options of the gate: skip audience and issued-at, check expiry. -/
def decodeOptions : VerifyOptions :=
  ⟨false, false, true⟩

/-- The literal `algorithms` list of the gate (line 87). -/
def gateAlgorithms : List String :=
  ["RS256"]

/-- Modelled from the spec: `KeycloakOpenID.decode_token` (third-party
collaborator) — "decode and verify the token's signature using the fetched key,
restricted to a single supported asymmetric signing algorithm; verify expiry
only ... On signature or expiry failure, transition to Rejected": failures
raise `KeycloakError`, which the decorator catches.  A `None` token (missing
header) is likewise a decode failure. -/
def decode_token (token : Option String) (td : TokenData) (algorithms : List String)
    (opts : VerifyOptions) (now : Int) : Except PyExc TokenData :=
  match token with
  | none => .error .keycloakError
  | some _ =>
    if !algorithms.contains td.alg then .error .keycloakError
    else if !td.sigValid then .error .keycloakError
    else if opts.verify_exp && decide (td.exp < now) then .error .keycloakError
    else .ok td

/-- Python `s.split(' ')`: split at every single space, keeping empty pieces. -/
def pySplitSpace (s : String) : List String :=
  go s.data []
where
  go : List Char → List Char → List String
    | [], acc => [String.mk acc.reverse]
    | c :: cs, acc =>
      if c == ' ' then String.mk acc.reverse :: go cs []
      else go cs (c :: acc)

/-- Token extraction (`src/auth/auth_decorators.py` lines 68-72): the header
value is split on spaces and indexed at 1 — a non-empty header with no space
raises `IndexError` (outside any `try`).  A missing or empty (falsy) header
leaves the token `None`. -/
def extract_token (auth : Option String) : Except PyExc (Option String) :=
  match auth with
  | none => .ok none
  | some a =>
    if a == "" then .ok none
    else
      match (pySplitSpace a).get? 1 with
      | some t => .ok (some t)
      | none => .error .indexError

/-- One inbound request as the decorator sees it: the `Authorization` header,
whether the identity provider's certificate fetch succeeds (`get_public_key` is
called outside the `try`, so a `KeycloakError` there is uncaught), the decoded
claims of the presented token, and the verification time. -/
structure GateRequest where
  authHeader : Option String
  certsOk : Bool
  tokenData : TokenData
  now : Int
deriving DecidableEq, Repr

/-- Outcome of one pass through the decorator. -/
inductive GateResult (α : Type)
  | handled (a : α)
  | rejected (e : Error) (status : Nat)
  | unhandled (e : PyExc)
deriving DecidableEq, Repr

/-- Whether the `except (KeycloakError, BussinesRulesError)` clause
(line 99) catches the exception. -/
def catchable : PyExc → Bool
  | .keycloakError => true
  | .bussinesRulesError => true
  | _ => false

/-- The fixed structured error of every rejection (line 101). -/
def authError (e : PyExc) : Error :=
  handle_exception_msg e "Authentication failed or user without permission."

/-- `token_required(required_roles)` applied to a handler `f`
(`src/auth/auth_decorators.py` lines 23-105).  Header extraction and the public
key fetch happen before the `try`; inside it, decode failures and missing roles
raised as `KeycloakError`/`BussinesRulesError` are converted to the structured
error with status 403, while any other exception (e.g. the `IndexError` from
`has_required_roles` on an empty role set) propagates unhandled. -/
def token_required {α : Type} (required : List String) (f : α) (req : GateRequest) :
    GateResult α :=
  match extract_token req.authHeader with
  | .error e => .unhandled e
  | .ok token =>
    if !req.certsOk then .unhandled .keycloakError
    else
      match decode_token token req.tokenData gateAlgorithms decodeOptions req.now with
      | .error e => if catchable e then .rejected (authError e) 403 else .unhandled e
      | .ok td =>
        match has_required_roles td.realm_access required with
        | .error e => if catchable e then .rejected (authError e) 403 else .unhandled e
        | .ok true => .handled f
        | .ok false => .rejected (authError .bussinesRulesError) 403

-- ### Substring search (used to state facts about the serialized output)

/-- Whether `pat` starts the list. -/
def matchHead : List Char → List Char → Bool
  | [], _ => true
  | _ :: _, [] => false
  | a :: as, b :: bs => a == b && matchHead as bs

/-- Whether `pat` occurs contiguously anywhere in the list. -/
def hasSubList (pat : List Char) : List Char → Bool
  | [] => matchHead pat []
  | c :: cs => matchHead pat (c :: cs) || hasSubList pat cs

/-- Whether `pat` occurs as a contiguous substring of `s`. -/
def strHasSub (s pat : String) : Bool :=
  hasSubList pat.data s.data

-- ### Concrete fixtures used by witnesses and counterexamples

/-- A persisted record with id 1. -/
def occ1 : Occurrence :=
  ⟨1, "leak", none, "pipe", true, ⟨2024, 1, 1, 12, 0, 0⟩, ⟨2024, 1, 1, 12, 0, 0⟩⟩

/-- A clean session holding exactly `occ1`, next autoincrement id 2. -/
def st1 : DBSession :=
  ⟨[occ1], [occ1], 2⟩

/-- A well-formed creation payload. -/
def payload0 : OccPayload :=
  ⟨"leak", none, "pipe burst", true, ⟨2024, 1, 2, 12, 30, 5⟩, ⟨2024, 1, 2, 12, 30, 5⟩⟩

/-- A record whose timestamps exercise the offset subtraction (the second one
crosses a day boundary under the 3-hour shift). -/
def occT : Occurrence :=
  ⟨7, "leak", some "near the valve", "pipe burst", true,
   ⟨2024, 1, 2, 12, 30, 5⟩, ⟨2024, 1, 2, 1, 2, 3⟩⟩

/-- A record carrying snake_case substrings inside field string values. -/
def occS : Occurrence :=
  ⟨3, "gas_leak", none, "main_pipe burst at_plant", false,
   ⟨2023, 5, 10, 15, 0, 0⟩, ⟨2023, 5, 10, 16, 45, 9⟩⟩

/-- Claim C1, counterexample.  A persistence failure during `delete` surfaces
the structured error WITHOUT a rollback: starting from a session holding one
record, the failed `delete` leaves the pending deletion in place, so the read
that `get` performs afterwards no longer sees the record, although the commit
never succeeded — a half-applied mutation visible to subsequent reads. -/
theorem claim1_counterexample :
    delete st1 1 true false =
      .ok (.err ⟨"SQLAlchemyError", "None", "Failed to delete Occurrence."⟩,
           ⟨[occ1], [], 2⟩) ∧
    get st1 none false = .all [occ1] ∧
    get ⟨[occ1], [], 2⟩ none false = .all [] ∧
    get ⟨[occ1], [], 2⟩ none false ≠ get st1 none false := by
  refine ⟨rfl, rfl, rfl, by decide⟩

/-- Claim C1, amended.  On a persistence-layer exception, `create` and `update`
roll back before surfacing the structured error (pending state is reset to the
committed state); `delete` surfaces the structured error without rolling back,
leaving the pending deletion visible to subsequent session reads. -/
theorem claim1_amended (st : DBSession) (i : Nat) (p : OccPayload) (q : OccPatch)
    (tj : Bool) :
    create st p true tj =
      (.err ⟨"SQLAlchemyError", "None", "Failed to create Occurrence."⟩,
       ⟨st.committed, st.committed, st.nextId⟩) ∧
    (∀ r, findById st.pending i = some r →
      update st i q true tj =
        (.err ⟨"SQLAlchemyError", "None", "Failed to update Occurrence."⟩,
         ⟨st.committed, st.committed, st.nextId⟩)) ∧
    (∀ r, i ≠ 0 → findById st.pending i = some r →
      delete st i true tj =
        .ok (.err ⟨"SQLAlchemyError", "None", "Failed to delete Occurrence."⟩,
             ⟨st.committed, removeById st.pending i, st.nextId⟩)) := by
  refine ⟨rfl, ?_, ?_⟩
  · intro r h
    simp [update, h, DBSession.rollback, handle_exception_msg, PyExc.className]
  · intro r hne h
    simp [delete, bne_iff_ne.mpr hne, h, handle_exception_msg, PyExc.className]

/-- Claim C1, witness for the amended statement at a concrete session. -/
theorem claim1_witness :
    update st1 1 OccPatch.empty true false =
      (.err ⟨"SQLAlchemyError", "None", "Failed to update Occurrence."⟩,
       ⟨[occ1], [occ1], 2⟩) :=
  (claim1_amended st1 1 payload0 OccPatch.empty false).2.1 occ1 rfl

/-- Claim C6, counterexample.  The identifier 0 is absent from the store (the
autoincrement starts at 1), yet `delete(0)` does not return the
`BussinesRulesError`-shaped failure: the truthiness test `if id:` routes it to
the `else` branch, where `session.delete()` is called with no argument and
raises an uncaught `TypeError`. -/
theorem claim6_counterexample :
    findById st1.pending 0 = none ∧
    delete st1 0 false false = .error .typeError ∧
    delete st1 0 false false ≠
      .ok (.err ⟨"BussinesRulesError", "None", "id not found."⟩, st1) := by
  refine ⟨rfl, rfl, by decide⟩

/-- Claim C6, amended.  For an identifier absent from the store, `update`
returns the `BussinesRulesError`-shaped structured error with message
"id not found." and leaves the session state unchanged; `delete` does the same
for every absent NONZERO identifier, but `delete(0)` takes the Python-falsy
branch of `if id:` and raises an uncaught `TypeError` from the no-argument
`session.delete()` call instead of returning the structured failure. -/
theorem claim6_not_found (st : DBSession) (i : Nat) (p : OccPatch) (cf tj : Bool)
    (h : findById st.pending i = none) :
    update st i p cf tj =
      (.err ⟨"BussinesRulesError", "None", "id not found."⟩, st) ∧
    (i ≠ 0 → delete st i cf tj =
      .ok (.err ⟨"BussinesRulesError", "None", "id not found."⟩, st)) ∧
    delete st 0 cf tj = .error .typeError := by
  refine ⟨?_, ?_, rfl⟩
  · simp [update, h, handle_exception_msg, PyExc.className]
  · intro hne
    simp [delete, bne_iff_ne.mpr hne, h, handle_exception_msg, PyExc.className]

/-- Claim C6, witness: id 2 is absent from the one-record session; id 0 crashes. -/
theorem claim6_witness :
    update st1 2 OccPatch.empty false false =
      (.err ⟨"BussinesRulesError", "None", "id not found."⟩, st1) ∧
    delete st1 2 false false =
      .ok (.err ⟨"BussinesRulesError", "None", "id not found."⟩, st1) ∧
    delete st1 0 false false = .error .typeError := by
  have h := claim6_not_found st1 2 OccPatch.empty false false rfl
  exact ⟨h.1, h.2.1 (by decide), h.2.2⟩

/-- Claim C8, counterexample.  The identifier 0 is given (and no record has
id 0), yet `get` does not return the not-found sentinel: `if id:` is a Python
truthiness test, so `get(0)` takes the all-records branch and returns every
record. -/
theorem claim8_counterexample :
    findById st1.pending 0 = none ∧
    get st1 (some 0) false = .all [occ1] ∧
    get st1 (some 0) false ≠ .sentinel := by
  refine ⟨rfl, rfl, by decide⟩

/-- Claim C8, amended.  For every NONZERO identifier, `get` returns the single
matching record, or the `None` sentinel (not an error value) when no record has
that identifier; when the identifier is omitted — or falsy (0), which the
truthiness test treats as omitted — it returns every record of the type (the
empty list when none exist). -/
theorem claim8_amended (st : DBSession) (i : Nat) :
    (i ≠ 0 → findById st.pending i = none → get st (some i) false = .sentinel) ∧
    (∀ r, i ≠ 0 → findById st.pending i = some r → get st (some i) false = .one r) ∧
    get st none false = .all st.pending ∧
    get st (some 0) false = .all st.pending := by
  refine ⟨?_, ?_, ?_, ?_⟩
  · intro hne h
    simp [get, bne_iff_ne.mpr hne, h]
  · intro r hne h
    simp [get, bne_iff_ne.mpr hne, h]
  · simp [get, getAllBranch]
  · simp [get, getAllBranch]

/-- Claim C8, witness: absent nonzero id yields the sentinel, present id the
record, omitted id the full list. -/
theorem claim8_witness :
    get st1 (some 2) false = .sentinel ∧
    get st1 (some 1) false = .one occ1 ∧
    get st1 none false = .all [occ1] := by
  have h := claim8_amended st1 2
  have h1 := claim8_amended st1 1
  exact ⟨h.1 (by decide) rfl, h1.2.1 occ1 (by decide) rfl, h1.2.2.1⟩

/-- Claim C7.  In a session whose autoincrement counter is nonzero and fresh
(no pending record already carries it), `create` followed by `get` with the
newly assigned identifier returns a record whose six payload fields equal the
input mapping, and whose identifier is store-assigned (the counter value,
hence nonzero, i.e. non-null). -/
theorem claim7_roundtrip (st : DBSession) (p : OccPayload)
    (h0 : st.nextId ≠ 0)
    (hfresh : ∀ r ∈ st.pending, r.id ≠ st.nextId) :
    ∃ r st',
      create st p false false = (.record r, st') ∧
      r.id = st.nextId ∧ r.id ≠ 0 ∧
      r.type_tag = p.type_tag ∧ r.description = p.description ∧
      r.resume = p.resume ∧ r.active = p.active ∧
      r.register_at = p.register_at ∧ r.update_at = p.update_at ∧
      get st' (some r.id) false = .one r := by
  refine ⟨mkOccurrence st.nextId p, _, rfl, rfl, h0, rfl, rfl, rfl, rfl, rfl, rfl, ?_⟩
  have hnone : st.pending.find? (fun r => r.id == st.nextId) = none :=
    List.find?_eq_none.mpr (fun x hx => by simpa using hfresh x hx)
  simp [get, create, findById, bne_iff_ne.mpr h0, List.find?_append, hnone,
    mkOccurrence]

/-- Claim C7, witness: creating in the empty session and reading id 1 back. -/
theorem claim7_witness :
    ∃ r st',
      create ⟨[], [], 1⟩ payload0 false false = (.record r, st') ∧
      r.id = 1 ∧ r.id ≠ 0 ∧
      r.type_tag = payload0.type_tag ∧ r.description = payload0.description ∧
      r.resume = payload0.resume ∧ r.active = payload0.active ∧
      r.register_at = payload0.register_at ∧ r.update_at = payload0.update_at ∧
      get st' (some r.id) false = .one r :=
  claim7_roundtrip ⟨[], [], 1⟩ payload0 (by decide) (by simp)

/-- Helper for C5: a filter criterion whose key names no column never
constrains a record. -/
theorem fieldMatches_of_unknown (r : Occurrence) (kv : String × FieldVal)
    (h : knownKey kv.1 = false) : fieldMatches r kv = true := by
  unfold knownKey at h
  simp only [Bool.or_eq_false_iff] at h
  obtain ⟨⟨⟨⟨⟨⟨h1, h2⟩, h3⟩, h4⟩, h5⟩, h6⟩, h7⟩ := h
  simp [fieldMatches, h1, h2, h3, h4, h5, h6, h7]

/-- Claim C5 (the `get_group` operation is modelled from the spec, since only
its caller is under `src/`).  `get_group` returns exactly the records matching
every key-value criterion (ANDed equalities); criteria whose keys name no
column are silently ignored (a filter of only unknown keys returns everything);
and the result is the empty collection when no record matches. -/
theorem claim5_get_group (recs : List Occurrence) (filt : List (String × FieldVal)) :
    (∀ r, r ∈ get_group recs filt ↔ r ∈ recs ∧ filt.all (fieldMatches r) = true) ∧
    ((∀ kv ∈ filt, knownKey kv.1 = false) → get_group recs filt = recs) ∧
    ((∀ r ∈ recs, filt.all (fieldMatches r) = false) → get_group recs filt = []) := by
  refine ⟨?_, ?_, ?_⟩
  · intro r
    simp [get_group, List.mem_filter]
  · intro h
    refine List.filter_eq_self.mpr (fun r _ => ?_)
    exact List.all_eq_true.mpr (fun kv hkv => fieldMatches_of_unknown r kv (h kv hkv))
  · intro h
    refine List.filter_eq_nil_iff.mpr (fun r hr => ?_)
    simp [h r hr]

/-- Claim C5, witness: the spec's example — three records, two with the
filtered tag; a filter on an unknown key returns all of them. -/
theorem claim5_witness :
    get_group [occ1, occS, occT] [("unknown_column", FieldVal.vs "x")] =
      [occ1, occS, occT] :=
  (claim5_get_group [occ1, occS, occT] [("unknown_column", FieldVal.vs "x")]).2.1
    (by decide)

/-- Claim C2, counterexample.  A present but malformed `Authorization` header
(no space-delimited scheme+token) makes `authorization.split(' ')[1]` raise
`IndexError` before any `try` block: the gate produces an unhandled exception,
not a structured 403 rejection. -/
theorem claim2_counterexample :
    token_required ["user_role"] (0 : Nat)
      ⟨some "Bearer", true, ⟨"RS256", true, 100, .dict ["user_role"]⟩, 0⟩ =
      .unhandled .indexError := by
  rfl

/-- Claim C2, amended.  Whenever the gate rejects through its exception handler
(a `KeycloakError` from decode/verify or a `BussinesRulesError` from the role
check), the result is the structured error with the fixed 403 status; but three
failure paths escape as unhandled exceptions instead: a malformed
`Authorization` header (`IndexError`, raised before the `try`), a public-key
fetch failure (`KeycloakError`, raised outside the `try`), and a token whose
realm role set is empty (`IndexError` inside the `try`, which the `except`
clause does not catch). -/
theorem claim2_amended {α : Type} (required : List String) (f : α) (req : GateRequest) :
    (∀ e s, token_required required f req = .rejected e s →
      s = 403 ∧ e.message = "Authentication failed or user without permission.") ∧
    (∀ a, req.authHeader = some a → a ≠ "" → (pySplitSpace a)[1]? = none →
      token_required required f req = .unhandled .indexError) ∧
    (∀ tok, extract_token req.authHeader = .ok tok → req.certsOk = false →
      token_required required f req = .unhandled .keycloakError) ∧
    (∀ t, extract_token req.authHeader = .ok (some t) → req.certsOk = true →
      req.tokenData.alg = "RS256" → req.tokenData.sigValid = true →
      ¬ req.tokenData.exp < req.now → req.tokenData.realm_access = .dict [] →
      token_required required f req = .unhandled .indexError) := by
  refine ⟨?_, ?_, ?_, ?_⟩
  · intro e s h
    unfold token_required at h
    repeat' split at h
    all_goals
      first
      | (rw [GateResult.rejected.injEq] at h
         obtain ⟨he, hs⟩ := h
         subst he
         subst hs
         exact ⟨rfl, rfl⟩)
      | simp at h
  · intro a ha hne hsplit
    have hex : extract_token req.authHeader = .error .indexError := by
      rw [ha]
      simp [extract_token, hne, hsplit]
    simp [token_required, hex]
  · intro tok hex hcf
    simp [token_required, hex, hcf]
  · intro t hex hc halg hsig hexp hra
    have hdec : decode_token (some t) req.tokenData gateAlgorithms decodeOptions req.now =
        .ok req.tokenData := by
      simp [decode_token, gateAlgorithms, halg, hsig, hexp]
    have hroles : has_required_roles req.tokenData.realm_access required =
        .error .indexError := by
      rw [hra]
      rfl
    simp [token_required, hex, hc, hdec, hroles, catchable]

/-- Claim C2, witness for the amended statement: a syntactically valid,
unexpired, correctly signed token whose realm role set is empty crashes the
gate with an uncaught `IndexError`. -/
theorem claim2_witness :
    token_required ["admin_role"] (0 : Nat)
      ⟨some "Bearer tok", true, ⟨"RS256", true, 50, .dict []⟩, 7⟩ =
      .unhandled .indexError :=
  (claim2_amended ["admin_role"] (0 : Nat)
      ⟨some "Bearer tok", true, ⟨"RS256", true, 50, .dict []⟩, 7⟩).2.2.2
    "tok" rfl rfl rfl rfl (by decide) rfl

/-- Claim C3.  Evaluation of `has_required_roles` at the inputs the claim
describes: a token missing a required role is refused and one whose role set
contains the required set is accepted; but a token carrying NO realm roles
(`realm_access` absent or its `roles` list empty) does not produce the
automatic failure the claim states — `missing_roles[0]` on the empty list
raises `IndexError`, which the decorator's `except` clause does not catch, so
the request dies with an unhandled exception instead of being rejected. -/
theorem claim3_empty_roles_bug :
    has_required_roles (.dict ["other_role"]) ["user_role"] = .ok false ∧
    has_required_roles (.dict ["user_role", "extra_role"]) ["user_role"] = .ok true ∧
    has_required_roles (.dict []) ["user_role"] = .error .indexError ∧
    has_required_roles .nonDict ["user_role"] = .ok false ∧
    token_required ["user_role"] (0 : Nat)
      ⟨some "Bearer x", true, ⟨"RS256", true, 99, .dict []⟩, 10⟩ =
      .unhandled .indexError := by
  refine ⟨rfl, rfl, rfl, rfl, rfl⟩

/-- Claim C4.  For every request presenting a well-formed bearer token whose
expiry lies in the past at verification time, and whatever its signature
validity, algorithm, or role content, the gate rejects with the structured
authorization error and status 403; the verification options passed by the
gate check expiry only (audience and issued-at are skipped) and the accepted
algorithm list is exactly `RS256`. -/
theorem claim4_expired_rejected {α : Type} (required : List String) (f : α)
    (req : GateRequest) (t : String)
    (hex : extract_token req.authHeader = .ok (some t))
    (hc : req.certsOk = true)
    (hexp : req.tokenData.exp < req.now) :
    token_required required f req = .rejected (authError .keycloakError) 403 ∧
    decodeOptions.verify_exp = true ∧ decodeOptions.verify_aud = false ∧
    decodeOptions.verify_iat = false ∧ gateAlgorithms = ["RS256"] := by
  refine ⟨?_, rfl, rfl, rfl, rfl⟩
  have hdec : decode_token (some t) req.tokenData gateAlgorithms decodeOptions req.now =
      .error .keycloakError := by
    unfold decode_token
    by_cases h1 : gateAlgorithms.contains req.tokenData.alg <;>
      by_cases h2 : req.tokenData.sigValid <;>
        simp [h1, h2, decodeOptions, hexp]
  simp [token_required, hex, hc, hdec, catchable]

/-- Claim C4, witness: a token expired at time 100, verified at time 200,
carrying the full required role set, is still rejected with 403. -/
theorem claim4_witness :
    token_required ["user_role"] (0 : Nat)
      ⟨some "Bearer tok", true, ⟨"RS256", true, 100, .dict ["user_role"]⟩, 200⟩ =
      .rejected (authError .keycloakError) 403 :=
  (claim4_expired_rejected ["user_role"] (0 : Nat)
      ⟨some "Bearer tok", true, ⟨"RS256", true, 100, .dict ["user_role"]⟩, 200⟩
      "tok" rfl rfl (by decide)).1

/-- Claim C9, counterexample.  The projection of `occT` renders no timestamp at
all: `self.__dict__` always carries the non-serializable `_sa_instance_state`
entry, `json.dumps` raises `TypeError`, and `to_json` returns the structured
`Error` — not a JSON projection with ISO-8601-like timestamp strings. -/
theorem claim9_counterexample :
    to_json occT = .error ⟨"TypeError", "None", "Failed to convert to JSON."⟩ := by
  rfl

/-- Claim C9, amended.  Inbound payload keys are translated camelCase →
snake_case before being applied as field mappings.  The projection computes
each timestamp with `strftime('%Y-%m-%dT%H:%M:%S')` after subtracting the fixed
3-hour offset and stores it in the dict, but `json.dumps` then always raises
`TypeError` on the `_sa_instance_state` entry that `self.__dict__` carries, so
`to_json` returns the structured `Error` ("Failed to convert to JSON.") for
every record and no JSON projection is produced; moreover, on the dict minus
that entry the pipeline's whole-string camelization would rewrite the
snake_case field names to camelCase but also strip the hyphens from the
rendered dates, leaving `'%Y%m%dT%H:%M:%S'`. -/
theorem claim9_amended :
    (∀ (v1 v2 v3 v4 v5 v6 : String),
      decamelizeKeys [("typeTag", v1), ("description", v2), ("resume", v3),
        ("active", v4), ("registerAt", v5), ("updateAt", v6)] =
      [("type_tag", v1), ("description", v2), ("resume", v3),
        ("active", v4), ("register_at", v5), ("update_at", v6)]) ∧
    subHours3 ⟨2024, 1, 2, 12, 30, 5⟩ = ⟨2024, 1, 2, 9, 30, 5⟩ ∧
    strftimeIso ⟨2024, 1, 2, 9, 30, 5⟩ = "2024-01-02T09:30:05" ∧
    subHours3 ⟨2024, 1, 2, 1, 2, 3⟩ = ⟨2024, 1, 1, 22, 2, 3⟩ ∧
    (∀ o : Occurrence,
      to_json o = .error ⟨"TypeError", "None", "Failed to convert to JSON."⟩) ∧
    json_dumps (List.drop 1 (occDict occT)) =
      .ok "\x7b\"id\": \"7\", \"type_tag\": \"leak\", \"description\": \"near the valve\", \"resume\": \"pipe burst\", \"active\": true, \"register_at\": \"2024-01-02T09:30:05\", \"update_at\": \"2024-01-01T22:02:03\"\x7d" ∧
    pyCamelize
      "\x7b\"id\": \"7\", \"type_tag\": \"leak\", \"description\": \"near the valve\", \"resume\": \"pipe burst\", \"active\": true, \"register_at\": \"2024-01-02T09:30:05\", \"update_at\": \"2024-01-01T22:02:03\"\x7d" =
      "\x7b\"id\": \"7\", \"typeTag\": \"leak\", \"description\": \"near the valve\", \"resume\": \"pipe burst\", \"active\": true, \"registerAt\": \"20240102T09:30:05\", \"updateAt\": \"20240101T22:02:03\"\x7d" := by
  exact ⟨fun v1 v2 v3 v4 v5 v6 => rfl, rfl, rfl, rfl, fun o => rfl, rfl, rfl⟩

/-- Claim C10, counterexample.  `to_json` never returns a string: on the record
whose field values carry snake_case substrings, it returns the structured
`Error` (the `_sa_instance_state` entry makes `json.dumps` raise `TypeError`),
so no serialized output with rewritten values exists. -/
theorem claim10_counterexample :
    occS.resume = "main_pipe burst at_plant" ∧
    to_json occS = .error ⟨"TypeError", "None", "Failed to convert to JSON."⟩ := by
  exact ⟨rfl, rfl⟩

/-- Claim C10, amended.  `to_json`'s final step applies `humps.camelize` to the
`json.dumps` output string, not to a dict's key set, and that string-level
rewriting converts every snake_case substring — field names and substrings
inside field string values alike (the stored `gas_leak` would project as
`gasLeak`, `main_pipe ... at_plant` as `mainPipe ... atPlant`); but
`json.dumps` always raises `TypeError` on the `_sa_instance_state` entry that
`self.__dict__` carries, so `to_json` always returns the structured `Error`
value and never actually produces that string. -/
theorem claim10_amended :
    (∀ o : Occurrence,
      to_json o = .error ⟨"TypeError", "None", "Failed to convert to JSON."⟩) ∧
    occS.type_tag = "gas_leak" ∧
    occS.resume = "main_pipe burst at_plant" ∧
    json_dumps (List.drop 1 (occDict occS)) =
      .ok "\x7b\"id\": \"3\", \"type_tag\": \"gas_leak\", \"description\": null, \"resume\": \"main_pipe burst at_plant\", \"active\": false, \"register_at\": \"2023-05-10T12:00:00\", \"update_at\": \"2023-05-10T13:45:09\"\x7d" ∧
    pyCamelize
      "\x7b\"id\": \"3\", \"type_tag\": \"gas_leak\", \"description\": null, \"resume\": \"main_pipe burst at_plant\", \"active\": false, \"register_at\": \"2023-05-10T12:00:00\", \"update_at\": \"2023-05-10T13:45:09\"\x7d" =
      "\x7b\"id\": \"3\", \"typeTag\": \"gasLeak\", \"description\": null, \"resume\": \"mainPipe burst atPlant\", \"active\": false, \"registerAt\": \"20230510T12:00:00\", \"updateAt\": \"20230510T13:45:09\"\x7d" ∧
    strHasSub
      "\x7b\"id\": \"3\", \"typeTag\": \"gasLeak\", \"description\": null, \"resume\": \"mainPipe burst atPlant\", \"active\": false, \"registerAt\": \"20230510T12:00:00\", \"updateAt\": \"20230510T13:45:09\"\x7d"
      "gasLeak" = true ∧
    strHasSub
      "\x7b\"id\": \"3\", \"typeTag\": \"gasLeak\", \"description\": null, \"resume\": \"mainPipe burst atPlant\", \"active\": false, \"registerAt\": \"20230510T12:00:00\", \"updateAt\": \"20230510T13:45:09\"\x7d"
      "main_pipe" = false ∧
    strHasSub
      "\x7b\"id\": \"3\", \"typeTag\": \"gasLeak\", \"description\": null, \"resume\": \"mainPipe burst atPlant\", \"active\": false, \"registerAt\": \"20230510T12:00:00\", \"updateAt\": \"20230510T13:45:09\"\x7d"
      "mainPipe" = true := by
  exact ⟨fun o => rfl, rfl, rfl, rfl, rfl, rfl, rfl, rfl⟩

end BabyApp
